import Mathlib

/-!
Verification of the realtime game-server coordination layer
(`server/main.go`, room registry / lobby revision) against its
natural-language specification.

The Go source is shallowly embedded: the `Hub`'s shared mutable maps become
association lists passed explicitly through each operation, pointer mutation
of a room becomes re-insertion of the updated record under its code, and
`time.Now()` becomes an explicit `now : Nat` parameter.  Go runtime panics
(array index out of range) are modelled by `Option`, with `none` standing
for a panic.  Each definition is a line-for-line translation of the function
of the same name in the source.
-/

namespace PlaygroundGames

/-- Go `strings.ToUpper` restricted to the ASCII strings the server produces
(room codes are drawn from `[a-z0-9]`): upper-case every character. -/
def goToUpper (s : String) : String := ⟨s.data.map Char.toUpper⟩

/-- Association-list lookup, modelling a read `m[k]` of a Go map. -/
def mapGet {α : Type} (m : List (String × α)) (k : String) : Option α :=
  (m.find? (fun p => p.1 == k)).map (fun p => p.2)

/-- Association-list insertion, modelling a Go map assignment `m[k] = v`. -/
def mapSet {α : Type} (m : List (String × α)) (k : String) (v : α) :
    List (String × α) :=
  (k, v) :: m.filter (fun p => p.1 ≠ k)

/-- Association-list removal, modelling Go `delete(m, k)`. -/
def mapDel {α : Type} (m : List (String × α)) (k : String) :
    List (String × α) :=
  m.filter (fun p => p.1 ≠ k)

/-- The `Room` struct of the source.  `CreatedAt`/`LastActive` are clock
readings, modelled as `Nat`. -/
structure Room where
  Code : String
  Host : String
  Players : List String
  Spectators : List String
  GameType : String
  GameMode : String
  GameID : String
  Status : String
  Password : String
  IsPrivate : Bool
  CreatedAt : Nat
  LastActive : Nat
deriving DecidableEq, Repr

/-- The room registry `hub.rooms`. -/
abbrev RoomsMap := List (String × Room)

/-- `createRoom` from the source: builds the room with the creator as sole
player and host and installs it in the registry.  The randomly generated
6-character `code` is passed in explicitly. -/
def createRoom (rooms : RoomsMap) (playerID gameType gameMode password : String)
    (code : String) (now : Nat) : Room × RoomsMap :=
  let room : Room :=
    { Code := code
      Host := playerID
      Players := [playerID]
      Spectators := []
      GameType := gameType
      GameMode := gameMode
      GameID := ""
      Status := "waiting"
      Password := password
      IsPrivate := password ≠ ""
      CreatedAt := now
      LastActive := now }
  (room, mapSet rooms code room)

/-- The inbound `create_room` payload.  The wire message may carry a
`player_name` field; the handler in the source never reads it, which the
`PlayerName` field records. -/
structure CreateRoomPayload where
  GameType : String
  PlayerID : String
  PlayerName : Option String
  GameMode : Option String
  Password : Option String
deriving DecidableEq, Repr

/-- The `MsgTypeCreateRoom` branch of `handleMessage`: extracts `game_type`,
`player_id`, and the optional `game_mode`/`password` (defaulting to `""`),
then calls `createRoom`.  `player_name` is ignored. -/
def handleCreateRoom (rooms : RoomsMap) (p : CreateRoomPayload)
    (code : String) (now : Nat) : Room × RoomsMap :=
  let gameMode := p.GameMode.getD ""
  let password := p.Password.getD ""
  createRoom rooms p.PlayerID p.GameType gameMode password code now

/-- `joinRoom` from the source.  Returns the (possibly new) room or an error
string, together with the updated registry; in-place mutation of the room
through its pointer is modelled by re-inserting the updated record. -/
def joinRoom (rooms : RoomsMap) (playerID code password : String)
    (now : Nat) : Except String Room × RoomsMap :=
  let code := goToUpper code
  if code.length ≠ 6 ∨ code ≠ goToUpper code then
    (.error "invalid room code format", rooms)
  else
    match mapGet rooms code with
    | none => (.error "room not found", rooms)
    | some room =>
      if room.IsPrivate ∧ room.Password ≠ password then
        (.error "invalid room password", rooms)
      else if room.Players.contains playerID then
        (.ok room, rooms)
      else if room.Spectators.contains playerID then
        (.ok room, rooms)
      else if room.Status = "playing" then
        let room' := { room with
          Spectators := room.Spectators ++ [playerID], LastActive := now }
        (.ok room', mapSet rooms code room')
      else if 8 ≤ room.Players.length then
        (.error "room is full (max 8 players)", rooms)
      else
        let room' := { room with
          Players := room.Players ++ [playerID], LastActive := now }
        (.ok room', mapSet rooms code room')

/-- `leaveRoom` from the source.  Note the condition
`len(newPlayers) == 0 && len(newSpectators) == 0 || playerID == room.Host`:
Go's precedence parses it as `(empty) || (leaver is host)`, so the room is
deleted whenever the host leaves; the host-reassignment branch below it is
reproduced faithfully even though it is unreachable in that case. -/
def leaveRoom (rooms : RoomsMap) (playerID code : String) (now : Nat) :
    RoomsMap :=
  match mapGet rooms code with
  | none => rooms
  | some room =>
    let newPlayers := room.Players.filter (fun p => p ≠ playerID)
    let newSpectators := room.Spectators.filter (fun s => s ≠ playerID)
    if (newPlayers = [] ∧ newSpectators = []) ∨ playerID = room.Host then
      mapDel rooms code
    else
      let room1 := { room with
        Players := newPlayers, Spectators := newSpectators,
        LastActive := now }
      let room2 :=
        if playerID = room.Host ∧ newPlayers ≠ [] then
          { room1 with Host := newPlayers.getD 0 "" }
        else room1
      mapSet rooms code room2

/-- The twelve game types recognised by the `if`-chain in `startGame`, in
source order. -/
inductive GameTag
  | tictactoe | jeopardy | hangman | memory | battleship | wordle
  | trivia | rps | connectfour | checkers | g2048 | dotsboxes
deriving DecidableEq, Repr

/-- Which branch of `startGame`'s `if`-chain a `game_type` string selects
(`none`: no branch, no game instance is created). -/
def gameTagOf (s : String) : Option GameTag :=
  if s = "tictactoe" then some .tictactoe
  else if s = "jeopardy" then some .jeopardy
  else if s = "hangman" then some .hangman
  else if s = "memory" then some .memory
  else if s = "battleship" then some .battleship
  else if s = "wordle" then some .wordle
  else if s = "trivia" then some .trivia
  else if s = "rps" then some .rps
  else if s = "connectfour" then some .connectfour
  else if s = "checkers" then some .checkers
  else if s = "2048" then some .g2048
  else if s = "dotsboxes" then some .dotsboxes
  else none

/-- The hub's twelve per-type game maps, modelled by the union of their key
sets tagged with the map each key went into.  The per-type initial game
values the source builds are modelled separately where a claim needs them
(`tictactoeInit`, `rpsInit`, `connectFourInit`). -/
abbrev GamesMap := List (String × GameTag)

/-- `startGame` from the source: requires at least one player, then assigns
the fresh `gameID`, sets `status = "playing"` (with **no** check of the
previous status), and installs a new engine instance in the map selected by
`game_type`. -/
def startGame (room : Room) (games : GamesMap) (gameID : String)
    (now : Nat) : Except String (Room × GamesMap) :=
  if room.Players.length < 1 then .error "need at least 1 player"
  else
    let room' := { room with
      GameID := gameID, Status := "playing", LastActive := now }
    match gameTagOf room.GameType with
    | some t => .ok (room', (gameID, t) :: games)
    | none => .ok (room', games)

/-- The `MsgTypeStartGame` branch of `handleMessage`: looks the room up,
rejects a non-host issuer and an empty room, then runs `startGame`.  The
first component is the `error` message sent back on rejection (`none` on
success); the registry and game maps are returned updated. -/
def handleStartGame (rooms : RoomsMap) (games : GamesMap)
    (code playerID gameID : String) (now : Nat) :
    Option String × RoomsMap × GamesMap :=
  match mapGet rooms code with
  | none => (some "Room not found", rooms, games)
  | some room =>
    if room.Host ≠ playerID then
      (some "Only host can start the game", rooms, games)
    else if room.Players.length < 1 then
      (some "Need at least 1 player", rooms, games)
    else
      match startGame room games gameID now with
      | .error e => (some e, rooms, games)
      | .ok (room', games') => (none, mapSet rooms code room', games')

/-- The per-connection `Client` record (identity binding of a session). -/
structure Client where
  playerID : String
  roomCode : String
deriving DecidableEq, Repr

/-- `broadcastGameState` from the source: finds the room owning `gameID`,
and — unless no room was found — writes the `game_state` message to **every**
client in `hub.clients`, with no filter on the client's `roomCode`.  The
result is the list of recipients. -/
def broadcastGameState (rooms : RoomsMap) (clients : List Client)
    (gameID : String) : List Client :=
  let roomCode :=
    match rooms.find? (fun p => p.2.GameID == gameID) with
    | some p => p.1
    | none => ""
  if roomCode = "" then [] else clients

/-- The Go loop `for i, p := range game.Players { if p == playerID
{ playerIndex = i; break } }` starting from `playerIndex := -1`. -/
def playerIndexOf (players : List String) (playerID : String) : Int :=
  go players 0
where
  go : List String → Int → Int
    | [], _ => -1
    | p :: rest, i => if p = playerID then i else go rest (i + 1)

/-- The `TicTacToeGame` struct (clock fields dropped: the lobby handler
never reads them). -/
structure TicTacToeGame where
  Board : List String
  Players : List String
  Turn : Int
  Winner : String
  MoveHistory : List Int
  GameMode : String
deriving DecidableEq, Repr

/-- The tictactoe branch of `startGame`: empty 9-cell board, the first two
room players (missing slots `""`), X moves first. -/
def tictactoeInit (roomPlayers : List String) (gameMode : String) :
    TicTacToeGame :=
  { Board := ["", "", "", "", "", "", "", "", ""]
    Players := [roomPlayers.getD 0 "", roomPlayers.getD 1 ""]
    Turn := 0
    Winner := ""
    MoveHistory := []
    GameMode := gameMode }

/-- Go array read `board[index]` on the 9-cell tictactoe board: `none`
models the runtime index-out-of-range panic. -/
def tttCell (board : List String) (index : Int) : Option String :=
  if 0 ≤ index ∧ index < 9 then some (board.getD index.toNat "") else none

/-- The eight `winPatterns` of `handleTicTacToeMove`. -/
def tttWinPatterns : List (Nat × Nat × Nat) :=
  [(0, 1, 2), (3, 4, 5), (6, 7, 8),
   (0, 3, 6), (1, 4, 7), (2, 5, 8),
   (0, 4, 8), (2, 4, 6)]

/-- One iteration of the winner loop: all three pattern cells non-empty and
equal. -/
def tttLine (board : List String) (p : Nat × Nat × Nat) : Bool :=
  board.getD p.1 "" ≠ "" ∧ board.getD p.1 "" = board.getD p.2.1 "" ∧
    board.getD p.2.1 "" = board.getD p.2.2 ""

/-- `handleTicTacToeMove` from the source: rejects a finished game, a
non-player or out-of-turn mover, and an occupied cell; otherwise places the
mover's symbol, runs the winner scan (any completed line sets
`Winner := playerID`), the draw scan, and flips the turn unconditionally.
`none` models a panic on an out-of-range `index`. -/
def handleTicTacToeMove (g : TicTacToeGame) (playerID : String)
    (index : Int) : Option (Except String TicTacToeGame) := do
  if g.Winner ≠ "" then return .error "Game already over"
  let pi := playerIndexOf g.Players playerID
  if pi = -1 ∨ pi ≠ g.Turn then return .error "Not your turn"
  let cell ← tttCell g.Board index
  if cell ≠ "" then return .error "Cell already taken"
  let symbols := ["X", "O"]
  let board' := g.Board.set index.toNat (symbols.getD pi.toNat "")
  let winner1 := if tttWinPatterns.any (tttLine board') then playerID
    else g.Winner
  let winner2 :=
    if winner1 = "" ∧ board'.all (fun cell => cell ≠ "") then "draw"
    else winner1
  return .ok { g with
    Board := board', Winner := winner2, Turn := 1 - g.Turn }

/-- Sequential application of tictactoe moves, short-circuiting on a
rejection or a panic (the dispatcher would stop broadcasting new state). -/
def tttApply (s : Option (Except String TicTacToeGame)) (m : String × Int) :
    Option (Except String TicTacToeGame) :=
  match s with
  | none => none
  | some (.error e) => some (.error e)
  | some (.ok g) => handleTicTacToeMove g m.1 m.2

/-- The `RPSGame` struct (clock field dropped). -/
structure RPSGame where
  Players : List String
  Turn : Int
  Moves : List String
  Winner : String
  BestOf : Int
  Scores : List Int
  RoundOver : Bool
  GameOver : Bool
deriving DecidableEq, Repr

/-- The rps branch of `startGame`: first two room players, `BestOf = 3`,
empty moves and zero scores. -/
def rpsInit (roomPlayers : List String) : RPSGame :=
  { Players := [roomPlayers.getD 0 "", roomPlayers.getD 1 ""]
    Turn := 0
    Moves := ["", ""]
    Winner := ""
    BestOf := 3
    Scores := [0, 0]
    RoundOver := false
    GameOver := false }

/-- `handleRPSMove` from the source.  Records the mover's throw; when both
throws are present the round resolves: the standard rule increments one
score (ties none), and the game ends as soon as a score strictly exceeds
`BestOf/2` (integer division), the strictly higher score naming the winner.
The source never clears `Moves` afterwards.  First component: the rejection
message, if any; second: the (possibly updated) game. -/
def handleRPSMove (g : RPSGame) (playerID mv : String) :
    Option String × RPSGame :=
  if g.GameOver then (some "Game already over", g)
  else
    let pi := playerIndexOf g.Players playerID
    if pi = -1 then (some "Not a player", g)
    else if g.Moves.getD pi.toNat "" ≠ "" then
      (some "Already played this round", g)
    else
      let moves' := g.Moves.set pi.toNat mv
      if moves'.getD 0 "" ≠ "" ∧ moves'.getD 1 "" ≠ "" then
        let m0 := moves'.getD 0 ""
        let m1 := moves'.getD 1 ""
        let scores' :=
          if m0 = m1 then g.Scores
          else if (m0 = "rock" ∧ m1 = "scissors") ∨
              (m0 = "paper" ∧ m1 = "rock") ∨
              (m0 = "scissors" ∧ m1 = "paper") then
            g.Scores.set 0 (g.Scores.getD 0 0 + 1)
          else
            g.Scores.set 1 (g.Scores.getD 1 0 + 1)
        let g1 := { g with
          Moves := moves', RoundOver := true, Scores := scores' }
        if scores'.getD 0 0 > g.BestOf / 2 ∨
            scores'.getD 1 0 > g.BestOf / 2 then
          let winner :=
            if scores'.getD 0 0 > scores'.getD 1 0 then g.Players.getD 0 ""
            else if scores'.getD 1 0 > scores'.getD 0 0 then
              g.Players.getD 1 ""
            else "draw"
          (none, { g1 with GameOver := true, Winner := winner })
        else (none, g1)
      else (none, { g with Moves := moves' })

/-- The 6×7 connect-four board, row 0 at the top. -/
abbrev C4Board := List (List String)

/-- Go array read `board[r][c]` on the 6×7 board: `none` models the runtime
index-out-of-range panic. -/
def cfCell (board : C4Board) (r c : Int) : Option String :=
  if 0 ≤ r ∧ r < 6 ∧ 0 ≤ c ∧ c < 7 then
    some ((board.getD r.toNat []).getD c.toNat "")
  else none

/-- Go array write `board[r][c] = v` (caller has bounds-checked). -/
def cfSet (board : C4Board) (r c : Int) (v : String) : C4Board :=
  board.set r.toNat ((board.getD r.toNat []).set c.toNat v)

/-- The horizontal loop of `checkConnectFourWinner`:
`for c := 0; c <= col-3; c++`, returning the left cell of a completed
window, `""` when the loop finishes with no window found. -/
def cfScanH (board : C4Board) (row col c : Int) : Option String :=
  if h : c ≤ col - 3 then do
    let a ← cfCell board row c
    if a ≠ "" then
      let b ← cfCell board row (c + 1)
      if a = b then
        let d ← cfCell board row (c + 2)
        if b = d then
          let e ← cfCell board row (c + 3)
          if d = e then
            return a
    cfScanH board row col (c + 1)
  else pure ""
termination_by (col - c).toNat
decreasing_by omega

/-- The down-right diagonal loop of `checkConnectFourWinner`:
`for r, c := row-3, col-3; r+3 <= row && c+3 <= col; r, c = r+1, c+1`.
The loop guard performs no lower-bounds check, so the very first board read
`board[r][c]` panics whenever `row < 3` or `col < 3`. -/
def cfScanDR (board : C4Board) (col row r c : Int) : Option String :=
  if h : r + 3 ≤ row ∧ c + 3 ≤ col then do
    let a ← cfCell board r c
    if a ≠ "" then
      let b ← cfCell board (r + 1) (c + 1)
      if a = b then
        let d ← cfCell board (r + 2) (c + 2)
        if b = d then
          let e ← cfCell board (r + 3) (c + 3)
          if d = e then
            return a
    cfScanDR board col row (r + 1) (c + 1)
  else pure ""
termination_by (row - r).toNat
decreasing_by omega

/-- The up-right diagonal loop of `checkConnectFourWinner`:
`for r, c := row+3, col-3; r-3 >= row && c+3 <= col; r, c = r-1, c+1`.
Its first read `board[r][c]` has `r = row + 3`, which is out of range
whenever `row ≥ 3`. -/
def cfScanUR (board : C4Board) (col row r c : Int) : Option String :=
  if h : r - 3 ≥ row ∧ c + 3 ≤ col then do
    let a ← cfCell board r c
    if a ≠ "" then
      let b ← cfCell board (r - 1) (c + 1)
      if a = b then
        let d ← cfCell board (r - 2) (c + 2)
        if b = d then
          let e ← cfCell board (r - 3) (c + 3)
          if d = e then
            return a
    cfScanUR board col row (r - 1) (c + 1)
  else pure ""
termination_by (r - row).toNat
decreasing_by omega

/-- `checkConnectFourWinner` from the source: the vertical check looks at
the three cells *above* the placed disc (`row-1 … row-3`), then the
horizontal and two diagonal scans run in order.  `none` models a panic. -/
def checkConnectFourWinner (board : C4Board) (col row : Int) :
    Option String := do
  if 3 ≤ row then
    let a ← cfCell board (row - 1) col
    if a ≠ "" then
      let b ← cfCell board (row - 2) col
      if a = b then
        let d ← cfCell board (row - 3) col
        if b = d then
          return (← cfCell board row col)
  let h ← cfScanH board row col 0
  if h ≠ "" then return h
  let d1 ← cfScanDR board col row (row - 3) (col - 3)
  if d1 ≠ "" then return d1
  let d2 ← cfScanUR board col row (row + 3) (col - 3)
  if d2 ≠ "" then return d2
  return ""

/-- The `ConnectFourGame` struct (clock field dropped). -/
structure ConnectFourGame where
  Board : C4Board
  Players : List String
  Turn : Int
  Winner : String
deriving DecidableEq, Repr

/-- The connectfour branch of `startGame`: empty 6×7 board, first two room
players. -/
def connectFourInit (roomPlayers : List String) : ConnectFourGame :=
  { Board := List.replicate 6 (List.replicate 7 "")
    Players := [roomPlayers.getD 0 "", roomPlayers.getD 1 ""]
    Turn := 0
    Winner := "" }

/-- The `for r := 5; r >= 0; r--` search for the lowest empty row of
`col` in `handleConnectFourMove` (`-1`: column full). -/
def c4FindRow (board : C4Board) (col : Int) : Int :=
  go 5 (by omega)
where
  go (r : Int) (hr : r ≤ 5) : Int :=
    if h : 0 ≤ r then
      if (board.getD r.toNat []).getD col.toNat "" = "" then r
      else go (r - 1) (by omega)
    else -1
  termination_by (r + 1).toNat
  decreasing_by omega

/-- `handleConnectFourMove` from the source: rejects a finished game, a
non-player or out-of-turn mover, an out-of-range column and a full column;
otherwise drops the disc to the lowest empty row, runs
`checkConnectFourWinner` around it (any non-empty result sets
`Winner := playerID`), the full-board draw scan, and flips the turn if the
game is not over.  `none` models a panic. -/
def handleConnectFourMove (g : ConnectFourGame) (playerID : String)
    (col : Int) : Option (Except String ConnectFourGame) := do
  if g.Winner ≠ "" then return .error "Game already over"
  let pi := playerIndexOf g.Players playerID
  if pi = -1 ∨ pi ≠ g.Turn then return .error "Not your turn"
  if col < 0 ∨ 7 ≤ col then return .error "Invalid column"
  let row := c4FindRow g.Board col
  if row = -1 then return .error "Column full"
  let symbols := ["🔴", "🟡"]
  let board' := cfSet g.Board row col (symbols.getD pi.toNat "")
  let w ← checkConnectFourWinner board' col row
  let winner1 := if w ≠ "" then playerID else g.Winner
  let winner2 :=
    if winner1 = "" ∧ board'.all (fun rowCells => rowCells.all
        (fun cell => cell ≠ "")) then "draw"
    else winner1
  let turn' := if winner2 = "" then 1 - g.Turn else g.Turn
  return .ok { g with Board := board', Winner := winner2, Turn := turn' }

/-- The `CheckersPiece` struct: `Player` is 0 (none), 1 or 2. -/
structure CheckersPiece where
  Player : Int
  King : Bool
deriving DecidableEq, Repr

/-- The empty square `CheckersPiece{}`. -/
def noPiece : CheckersPiece := { Player := 0, King := false }

/-- The 8×8 checkers board. -/
abbrev CheckersBoard := List (List CheckersPiece)

/-- Board read `board[r][c]` (all reads in the source are bounds-checked
first, so a total read with the zero value as default is faithful). -/
def ckGet (board : CheckersBoard) (r c : Int) : CheckersPiece :=
  (board.getD r.toNat []).getD c.toNat noPiece

/-- Board write `board[r][c] = v`. -/
def ckSet (board : CheckersBoard) (r c : Int) (v : CheckersPiece) :
    CheckersBoard :=
  board.set r.toNat ((board.getD r.toNat []).set c.toNat v)

/-- The `CheckersMove` struct as built by `getCheckersValidMoves` (its
`GameID`/`Player` strings stay zero-valued there). -/
structure CheckersMoveRec where
  GameID : String
  Player : String
  FromRow : Int
  FromCol : Int
  ToRow : Int
  ToCol : Int
deriving DecidableEq, Repr

/-- Go `abs` helper from the source. -/
def goAbs (n : Int) : Int := if n < 0 then -n else n

/-- `getCheckersValidMoves` from the source: for each piece of `player`,
single-step diagonal moves to empty squares and two-step jumps over an
enemy piece onto an empty square, forward-only for non-kings. -/
def getCheckersValidMoves (board : CheckersBoard) (player : Int) :
    List CheckersMoveRec :=
  (List.range 8).flatMap (fun rn =>
    (List.range 8).flatMap (fun cn =>
      let r : Int := rn
      let c : Int := cn
      if (ckGet board r c).Player = player then
        let dirs : List Int :=
          if (ckGet board r c).King then [-1, 1]
          else if player = 1 then [1]
          else [-1]
        ([-1, 1] : List Int).flatMap (fun dc =>
          dirs.flatMap (fun dr =>
            let nr := r + dr
            let nc := c + dc
            if 0 ≤ nr ∧ nr < 8 ∧ 0 ≤ nc ∧ nc < 8 then
              if (ckGet board nr nc).Player = 0 then
                [{ GameID := "", Player := "", FromRow := r, FromCol := c,
                   ToRow := nr, ToCol := nc }]
              else if (ckGet board nr nc).Player ≠ player then
                let jr := nr + dr
                let jc := nc + dc
                if 0 ≤ jr ∧ jr < 8 ∧ 0 ≤ jc ∧ jc < 8 ∧
                    (ckGet board jr jc).Player = 0 then
                  [{ GameID := "", Player := "", FromRow := r, FromCol := c,
                     ToRow := jr, ToCol := jc }]
                else []
              else []
            else []))
      else []))

/-- The `CheckersGame` struct (clock field dropped). -/
structure CheckersGame where
  Board : CheckersBoard
  Players : List String
  Turn : Int
  Winner : String
  ValidMoves : List CheckersMoveRec
deriving DecidableEq, Repr

/-- The straight-line tail of `handleCheckersMove` after the simple/jump
branch: the forward-direction check for non-kings (**run after a jump has
already removed the captured piece**), then the piece move, crowning, the
win count and the turn flip with `ValidMoves` refresh. -/
def checkersFinish (g : CheckersGame) (pi : Int) (piece : CheckersPiece)
    (fromRow fromCol toRow toCol dr : Int) (playerID : String) :
    Option String × CheckersGame :=
  if ¬piece.King ∧ ((pi = 0 ∧ 0 < dr) ∨ (pi = 1 ∧ dr < 0)) then
    (some "Can only move forward", g)
  else
    let b1 := ckSet g.Board toRow toCol piece
    let b2 := ckSet b1 fromRow fromCol noPiece
    let b3 :=
      if (pi = 0 ∧ toRow = 7) ∨ (pi = 1 ∧ toRow = 0) then
        ckSet b2 toRow toCol { ckGet b2 toRow toCol with King := true }
      else b2
    let oppCount := ((List.range 8).flatMap (fun rn =>
      (List.range 8).filterMap (fun cn =>
        if (ckGet b3 (rn : Int) (cn : Int)).Player = pi + 1 then some ()
        else none))).length
    let winner := if oppCount = 0 then playerID else g.Winner
    let g1 := { g with Board := b3, Winner := winner }
    if g1.Winner = "" then
      let turn' := 1 - g1.Turn
      (none, { g1 with
        Turn := turn'
        ValidMoves := getCheckersValidMoves b3 (turn' + 1) })
    else (none, g1)

/-- `handleCheckersMove` from the source: rejects a finished game, a
non-player or out-of-turn mover, off-board coordinates and a square not
holding the mover's piece; classifies the move as a single diagonal step or
a two-square jump — a jump over a capturable piece **removes that piece
immediately** — rejects anything else, and only *then* checks the
forward-only rule for non-kings, so that rejection can leave a mutated
board.  Second component: the engine state after the call. -/
def handleCheckersMove (g : CheckersGame) (playerID : String)
    (fromRow fromCol toRow toCol : Int) : Option String × CheckersGame :=
  if g.Winner ≠ "" then (some "Game already over", g)
  else
    let pi := playerIndexOf g.Players playerID
    if pi = -1 ∨ pi ≠ g.Turn then (some "Not your turn", g)
    else if fromRow < 0 ∨ 8 ≤ fromRow ∨ fromCol < 0 ∨ 8 ≤ fromCol ∨
        toRow < 0 ∨ 8 ≤ toRow ∨ toCol < 0 ∨ 8 ≤ toCol then
      (some "Invalid coordinates", g)
    else
      let piece := ckGet g.Board fromRow fromCol
      if piece.Player ≠ pi + 1 then (some "No piece there", g)
      else
        let dr := toRow - fromRow
        let dc := toCol - fromCol
        if ¬(goAbs dr = 1 ∧ goAbs dc = 1) then
          if goAbs dr = 2 ∧ goAbs dc = 2 then
            let midR := (fromRow + toRow) / 2
            let midC := (fromCol + toCol) / 2
            let midPiece := ckGet g.Board midR midC
            if midPiece.Player = 0 ∨ midPiece.Player = pi + 1 then
              (some "Invalid jump", g)
            else
              let g' := { g with Board := ckSet g.Board midR midC noPiece }
              checkersFinish g' pi piece fromRow fromCol toRow toCol dr
                playerID
          else (some "Invalid move", g)
        else
          checkersFinish g pi piece fromRow fromCol toRow toCol dr playerID

/-! ### Concrete fixtures used by the theorems below. -/

/-- A waiting room with players `[A, B, C]` and host `A` (scenario S5). -/
def roomABC : Room :=
  { Code := "ROOMAB", Host := "A", Players := ["A", "B", "C"],
    Spectators := [], GameType := "tictactoe", GameMode := "classic",
    GameID := "", Status := "waiting", Password := "", IsPrivate := false,
    CreatedAt := 0, LastActive := 0 }

/-- A memory room already playing, with `A` its only player. -/
def roomMem : Room :=
  { Code := "MEMABC", Host := "A", Players := ["A"], Spectators := [],
    GameType := "memory", GameMode := "classic", GameID := "game_aaaaaaaa",
    Status := "playing", Password := "", IsPrivate := false,
    CreatedAt := 0, LastActive := 0 }

/-- A private waiting room with players `[A, B]`, spectator `S`. -/
def roomIdem : Room :=
  { Code := "IDEMAA", Host := "A", Players := ["A", "B"],
    Spectators := ["S"], GameType := "rps", GameMode := "classic",
    GameID := "", Status := "waiting", Password := "pw", IsPrivate := true,
    CreatedAt := 3, LastActive := 4 }

/-- A room whose game is already running (status `playing`), host `H`. -/
def roomPlaying : Room :=
  { Code := "ROOMCD", Host := "H", Players := ["H", "B"], Spectators := [],
    GameType := "tictactoe", GameMode := "classic", GameID := "game_old",
    Status := "playing", Password := "", IsPrivate := false,
    CreatedAt := 0, LastActive := 0 }

/-- A checkers position: player 1's ordinary (non-king) piece on (3,3),
player 2's piece on (4,4), every other square empty; player 1 to move. -/
def ckBoardJump : CheckersBoard :=
  (List.range 8).map (fun r =>
    (List.range 8).map (fun c =>
      if r = 3 ∧ c = 3 then ({ Player := 1, King := false } : CheckersPiece)
      else if r = 4 ∧ c = 4 then { Player := 2, King := false }
      else noPiece))

/-- The checkers game holding `ckBoardJump`. -/
def ckGameJump : CheckersGame :=
  { Board := ckBoardJump, Players := ["P", "Q"], Turn := 0, Winner := "",
    ValidMoves := [] }

/-- An rps game mid-match: score 1–0 for `P`, `P` has thrown rock this
round, `Q` still to throw. -/
def rpsMid : RPSGame :=
  { Players := ["P", "Q"], Turn := 0, Moves := ["rock", ""], Winner := "",
    BestOf := 3, Scores := [1, 0], RoundOver := true, GameOver := false }

/-- An rps game mid-match at 1–1, `P` has thrown rock this round. -/
def rpsTied : RPSGame :=
  { Players := ["P", "Q"], Turn := 0, Moves := ["rock", ""], Winner := "",
    BestOf := 3, Scores := [1, 1], RoundOver := true, GameOver := false }

/-- A `create_room` payload whose `player_name` trims to the empty
string. -/
def emptyNamePayload : CreateRoomPayload :=
  { GameType := "tictactoe", PlayerID := "p1", PlayerName := some "",
    GameMode := none, Password := none }

/-! ### Helper lemmas. -/

/-- Reading back the key just assigned into a map returns the assigned
value. -/
theorem mapGet_mapSet_self {α : Type} (m : List (String × α)) (k : String)
    (v : α) : mapGet (mapSet m k v) k = some v := by
  simp [mapGet, mapSet, List.find?]

/-! ### Claim theorems. -/

/-- C1: in `leaveRoom`, the host leaving a room with players `[A, B, C]`
does **not** promote `B`: the `(players empty && spectators empty) ||
leaver == host` guard deletes the room from the registry outright, so after
host `A` leaves, lookup of the room finds nothing (the spec instead demands
a surviving room with `players = [B, C]`, `host = B`). -/
theorem leaveRoom_host_exit_destroys_room :
    leaveRoom [("ROOMAB", roomABC)] "A" "ROOMAB" 5 = [] ∧
      mapGet (leaveRoom [("ROOMAB", roomABC)] "A" "ROOMAB" 5) "ROOMAB" =
        none := by
  constructor <;> rfl

/-- C3: the engine state is **not** left byte-identical on every rejection:
a non-king backward jump `(3,3) → (5,5)` over the opponent piece on `(4,4)`
is rejected with `Can only move forward`, yet the capture has already
cleared `(4,4)`, so the post-rejection game differs from the pre-move
game. -/
theorem handleCheckersMove_rejected_jump_mutates :
    (handleCheckersMove ckGameJump "P" 3 3 5 5).1 =
        some "Can only move forward" ∧
      (handleCheckersMove ckGameJump "P" 3 3 5 5).2 ≠ ckGameJump ∧
      ckGet (handleCheckersMove ckGameJump "P" 3 3 5 5).2.Board 4 4 =
        noPiece := by
  refine ⟨by rfl, by decide, by rfl⟩

/-- C8: scenario S1 verbatim: from a fresh classic tictactoe game between
`P1` and `P2`, the move sequence `P1:4, P2:0, P1:1, P2:3, P1:7` is accepted
throughout and ends with `winner = P1` and board
`["O","X","","O","X","","","X",""]`. -/
theorem tictactoe_scenario_s1 :
    List.foldl tttApply
        (some (.ok (tictactoeInit ["P1", "P2"] "classic")))
        [("P1", 4), ("P2", 0), ("P1", 1), ("P2", 3), ("P1", 7)] =
      some (.ok
        { Board := ["O", "X", "", "O", "X", "", "", "X", ""]
          Players := ["P1", "P2"]
          Turn := 1
          Winner := "P1"
          MoveHistory := []
          GameMode := "classic" }) := by
  rfl

/-- C6: the very first move of a fresh connect-four game — `P` (whose turn
it is) into the in-range, empty column 0 — does not place a disc and return
a state: the diagonal scan of `checkConnectFourWinner` reads
`board[2][-3]`, a Go index-out-of-range panic, modelled here as `none`. -/
theorem handleConnectFourMove_first_move_panics :
    handleConnectFourMove (connectFourInit ["P", "Q"]) "P" 0 = none := by
  simp [handleConnectFourMove, connectFourInit, playerIndexOf,
    playerIndexOf.go, c4FindRow, c4FindRow.go, cfSet, cfCell,
    checkConnectFourWinner, cfScanH, cfScanDR, cfScanUR]

/-- C5: `create_room` performs no `player_name` validation: with a
`player_name` that is the empty string, the handler still creates the room
and installs it in the registry (the spec instead demands a
`ValidationFailed` error and no room). -/
theorem handleCreateRoom_empty_name_cex :
    (handleCreateRoom [] emptyNamePayload "ABCDEF" 0).1.Players = ["p1"] ∧
      mapGet (handleCreateRoom [] emptyNamePayload "ABCDEF" 0).2 "ABCDEF" =
        some (handleCreateRoom [] emptyNamePayload "ABCDEF" 0).1 := by
  constructor <;> rfl

/-- C5 (amended): the `create_room` handler never reads `player_name`; for
every payload — `player_name` missing, empty, or anything else — a room is
created with the creator as sole player and host, status `waiting`, and is
installed in the registry under its code. -/
theorem handleCreateRoom_no_name_validation (rooms : RoomsMap)
    (p : CreateRoomPayload) (code : String) (now : Nat) :
    (handleCreateRoom rooms p code now).1.Players = [p.PlayerID] ∧
      (handleCreateRoom rooms p code now).1.Host = p.PlayerID ∧
      (handleCreateRoom rooms p code now).1.Status = "waiting" ∧
      (handleCreateRoom rooms p code now).2 =
        mapSet rooms code (handleCreateRoom rooms p code now).1 ∧
      mapGet (handleCreateRoom rooms p code now).2 code =
        some (handleCreateRoom rooms p code now).1 := by
  refine ⟨rfl, rfl, rfl, rfl, ?_⟩
  exact mapGet_mapSet_self ..

/-- C10: whenever some room owns the game (which is how the move dispatcher
found the engine in the first place), `broadcastGameState` writes the
`game_state` snapshot to **every** connected client — the recipient list is
the whole client set, with no filter on each session's `roomCode`. -/
theorem broadcastGameState_reaches_every_client (rooms : RoomsMap)
    (clients : List Client) (gameID : String) (entry : String × Room)
    (hfind : rooms.find? (fun p => p.2.GameID == gameID) = some entry)
    (hcode : entry.1 ≠ "") :
    broadcastGameState rooms clients gameID = clients := by
  simp [broadcastGameState, hfind, hcode]

/-- C10 witness: with the room `ROOMCD` owning `game_old`, the snapshot
goes to the client in that room, the client in another room, and the
client in no room alike. -/
theorem broadcastGameState_reaches_every_client_witness :
    broadcastGameState [("ROOMCD", roomPlaying)]
        [⟨"H", "ROOMCD"⟩, ⟨"X", "OTHER0"⟩, ⟨"Y", ""⟩] "game_old" =
      [⟨"H", "ROOMCD"⟩, ⟨"X", "OTHER0"⟩, ⟨"Y", ""⟩] :=
  broadcastGameState_reaches_every_client _ _ _ ("ROOMCD", roomPlaying)
    (by rfl) (by decide)

/-- C9: `join_room` is idempotent for a `player_id` already present as a
player or as a spectator: with the room's (uppercase, 6-character) code and
the correct password, the call succeeds, returns the current room, and
leaves the registry — players, spectators, host, status and game fields
included — exactly as it was. -/
theorem joinRoom_idempotent (rooms : RoomsMap) (room : Room)
    (playerID code password : String) (now : Nat)
    (hupper : goToUpper code = code)
    (hlen : code.length = 6)
    (hfind : mapGet rooms code = some room)
    (hpw : ¬(room.IsPrivate ∧ room.Password ≠ password))
    (hmem : playerID ∈ room.Players ∨ playerID ∈ room.Spectators) :
    joinRoom rooms playerID code password now = (.ok room, rooms) := by
  by_cases hp : playerID ∈ room.Players
  · simp [joinRoom, hupper, hfind, hlen, hpw, hp]
  · rcases hmem with h | h
    · exact absurd h hp
    · simp [joinRoom, hupper, hfind, hlen, hpw, hp, h]

/-- C9 witness: spectator `S` re-joining the private room `IDEMAA` with its
password gets the room back unchanged. -/
theorem joinRoom_idempotent_witness :
    joinRoom [("IDEMAA", roomIdem)] "S" "IDEMAA" "pw" 9 =
      (.ok roomIdem, [("IDEMAA", roomIdem)]) :=
  joinRoom_idempotent _ roomIdem _ _ _ _ (by rfl) (by rfl) (by rfl)
    (by decide) (by decide)

/-- C2: the claim fails on the code: `joinRoom` has no multi-player-joinable
set — on the playing `memory` room (fewer than 8 players, correct password,
joiner not yet present) the joiner `B` is appended to `spectators`, and
`players` stays `["A"]` instead of becoming `["A", "B"]`. -/
theorem joinRoom_playing_memory_spectator_cex :
    ((joinRoom [("MEMABC", roomMem)] "B" "MEMABC" "" 7).1.toOption.map
        Room.Players = some ["A"]) ∧
      ((joinRoom [("MEMABC", roomMem)] "B" "MEMABC" "" 7).1.toOption.map
        Room.Spectators = some ["B"]) := by
  constructor <;> rfl

/-- C2 (amended): for every `join_room` with the correct password on a room
with `status = "playing"` whose players and spectators do not contain the
joiner, the joiner is appended to `spectators` — never to `players`,
whatever the `game_type`. -/
theorem joinRoom_playing_appends_spectator (rooms : RoomsMap) (room : Room)
    (playerID code password : String) (now : Nat)
    (hupper : goToUpper code = code)
    (hlen : code.length = 6)
    (hfind : mapGet rooms code = some room)
    (hpw : ¬(room.IsPrivate ∧ room.Password ≠ password))
    (hp : playerID ∉ room.Players)
    (hs : playerID ∉ room.Spectators)
    (hst : room.Status = "playing") :
    joinRoom rooms playerID code password now =
      (.ok { room with
          Spectators := room.Spectators ++ [playerID], LastActive := now },
        mapSet rooms code { room with
          Spectators := room.Spectators ++ [playerID],
          LastActive := now }) := by
  simp [joinRoom, hupper, hfind, hlen, hpw, hp, hs, hst]

/-- C2 witness: `B` joining the playing memory room `MEMABC` lands in
`spectators`. -/
theorem joinRoom_playing_appends_spectator_witness :
    joinRoom [("MEMABC", roomMem)] "B" "MEMABC" "" 7 =
      (.ok { roomMem with Spectators := ["B"], LastActive := 7 },
        mapSet [("MEMABC", roomMem)] "MEMABC"
          { roomMem with Spectators := ["B"], LastActive := 7 }) :=
  joinRoom_playing_appends_spectator _ roomMem _ _ _ _ (by rfl) (by rfl)
    (by rfl) (by decide) (by decide) (by decide) (by rfl)

/-- C4: the claim fails on the code: `start_game` from the host on a room
whose status is already `playing` is **accepted** — no error is sent, the
room's `game_id` is replaced by a fresh one, and a new engine instance is
installed — where the claim demands rejection with no mutation. -/
theorem handleStartGame_playing_room_cex :
    (handleStartGame [("ROOMCD", roomPlaying)] [("game_old", .tictactoe)]
        "ROOMCD" "H" "game_new" 9).1 = none ∧
      (mapGet (handleStartGame [("ROOMCD", roomPlaying)]
          [("game_old", .tictactoe)] "ROOMCD" "H" "game_new" 9).2.1
        "ROOMCD").map Room.GameID = some "game_new" ∧
      (handleStartGame [("ROOMCD", roomPlaying)] [("game_old", .tictactoe)]
          "ROOMCD" "H" "game_new" 9).2.2 =
        [("game_new", .tictactoe), ("game_old", .tictactoe)] := by
  refine ⟨rfl, rfl, rfl⟩

/-- C4 (amended): `start_game` is gated on the issuer being host and the
room being non-empty only — the status is never consulted.  A non-host
issuer is rejected with an error and registry and game maps are unchanged;
a host issuer of a non-empty room always succeeds: the room gets the fresh
`game_id` and `status = "playing"`, and a new instance is installed in the
map chosen by `game_type`. -/
theorem handleStartGame_host_gate_only (rooms : RoomsMap) (games : GamesMap)
    (code playerID gameID : String) (now : Nat) (room : Room)
    (hfind : mapGet rooms code = some room) :
    (playerID ≠ room.Host →
      handleStartGame rooms games code playerID gameID now =
        (some "Only host can start the game", rooms, games)) ∧
    (playerID = room.Host → room.Players ≠ [] →
      handleStartGame rooms games code playerID gameID now =
        (none,
          mapSet rooms code { room with
            GameID := gameID, Status := "playing", LastActive := now },
          match gameTagOf room.GameType with
          | some t => (gameID, t) :: games
          | none => games)) := by
  constructor
  · intro hne
    unfold handleStartGame
    rw [hfind]
    simp [Ne.symm hne]
  · intro heq hne
    have hlen : ¬room.Players.length < 1 := by
      simpa [Nat.lt_one_iff] using hne
    unfold handleStartGame startGame
    rw [hfind]
    simp only [heq, hlen, if_false, ite_not, ne_eq, not_true_eq_false]
    cases htag : gameTagOf room.GameType <;> simp [htag]

/-- C4 witness: instantiated at the already-playing room `ROOMCD` with host
`H`: the non-host `B` is rejected without mutation, while host `H` restarts
the game with the fresh id even though the status is `playing`. -/
theorem handleStartGame_host_gate_only_witness :
    ("B" ≠ roomPlaying.Host →
      handleStartGame [("ROOMCD", roomPlaying)] [("game_old", .tictactoe)]
          "ROOMCD" "B" "game_new" 9 =
        (some "Only host can start the game", [("ROOMCD", roomPlaying)],
          [("game_old", .tictactoe)])) ∧
    ("B" = roomPlaying.Host → roomPlaying.Players ≠ [] →
      handleStartGame [("ROOMCD", roomPlaying)] [("game_old", .tictactoe)]
          "ROOMCD" "B" "game_new" 9 =
        (none,
          mapSet [("ROOMCD", roomPlaying)] "ROOMCD" { roomPlaying with
            GameID := "game_new", Status := "playing", LastActive := 9 },
          match gameTagOf roomPlaying.GameType with
          | some t => ("game_new", t) :: [("game_old", .tictactoe)]
          | none => [("game_old", .tictactoe)])) :=
  handleStartGame_host_gate_only [("ROOMCD", roomPlaying)]
    [("game_old", .tictactoe)] "ROOMCD" "B" "game_new" 9 roomPlaying
    (by rfl)

/-- C7: the claim fails on the code: with `best_of = 3`, `Q` completing a
round against a 1–0 score makes `P`'s round-win count 2 — and the game is
already over with `P` recorded as winner, even though both counts are below
the claimed threshold `⌈best_of/2⌉+1 = 3`. -/
theorem handleRPSMove_over_at_two_cex :
    (handleRPSMove rpsMid "Q" "scissors").1 = none ∧
      (handleRPSMove rpsMid "Q" "scissors").2.GameOver = true ∧
      (handleRPSMove rpsMid "Q" "scissors").2.Scores = [2, 0] ∧
      (handleRPSMove rpsMid "Q" "scissors").2.Winner = "P" := by
  refine ⟨rfl, rfl, rfl, rfl⟩

set_option maxHeartbeats 2000000 in
/-- C7 (amended): with `best_of = 3` and both round-win counts at most 1
before the move, a move leaves the game over exactly when a count has
exceeded `best_of/2 = 1`, i.e. first reached `⌊best_of/2⌋+1 = 2`, and the
player whose count did so is recorded as the winner; the game stays not
over while both counts remain below 2. -/
theorem handleRPSMove_first_to_two (g : RPSGame) (p q pid mv : String)
    (m0 m1 : String) (s0 s1 : Int)
    (hP : g.Players = [p, q]) (hM : g.Moves = [m0, m1])
    (hS : g.Scores = [s0, s1]) (hB : g.BestOf = 3)
    (hG : g.GameOver = false)
    (h0 : s0 ≤ 1) (h1 : s1 ≤ 1) :
    ((handleRPSMove g pid mv).2.GameOver = true ↔
      1 < (handleRPSMove g pid mv).2.Scores.getD 0 0 ∨
      1 < (handleRPSMove g pid mv).2.Scores.getD 1 0) ∧
    (1 < (handleRPSMove g pid mv).2.Scores.getD 0 0 →
      (handleRPSMove g pid mv).2.Winner = p) ∧
    (1 < (handleRPSMove g pid mv).2.Scores.getD 1 0 →
      (handleRPSMove g pid mv).2.Winner = q) := by
  unfold handleRPSMove
  rw [hG, hP, hM, hS, hB]
  by_cases hpp : p = pid <;> by_cases hqq : q = pid <;>
    simp only [playerIndexOf, playerIndexOf.go, hpp, hqq, if_true, if_false,
      Bool.false_eq_true, reduceIte]
  all_goals try split_ifs
  all_goals simp_all [List.getD]
  all_goals try omega

/-- C7 witness: at 1–1 with `P`'s rock on the table, `Q`'s paper resolves
the round; the instantiated conclusion ties `game over` to a count having
reached 2, with that player the winner. -/
theorem handleRPSMove_first_to_two_witness :
    ((handleRPSMove rpsTied "Q" "paper").2.GameOver = true ↔
      1 < (handleRPSMove rpsTied "Q" "paper").2.Scores.getD 0 0 ∨
      1 < (handleRPSMove rpsTied "Q" "paper").2.Scores.getD 1 0) ∧
    (1 < (handleRPSMove rpsTied "Q" "paper").2.Scores.getD 0 0 →
      (handleRPSMove rpsTied "Q" "paper").2.Winner = "P") ∧
    (1 < (handleRPSMove rpsTied "Q" "paper").2.Scores.getD 1 0 →
      (handleRPSMove rpsTied "Q" "paper").2.Winner = "Q") :=
  handleRPSMove_first_to_two rpsTied "P" "Q" "Q" "paper" "rock" "" 1 1
    (by rfl) (by rfl) (by rfl) (by rfl) (by rfl) (by norm_num) (by norm_num)

end PlaygroundGames
